import Mathlib

/-!
Shallow embedding of `src/deepctr_torch/callbacks.py` (class `ModelCheckpoint`).

Python scalar metric values are modelled as rationals extended with the two
infinities (`float('inf')`, `-float('inf')`); Python's two-argument `min`/`max`
become `pymin`/`pymax`.  The `filepath` format string is modelled as a
pre-parsed list of literal pieces and `{name}` placeholders, and
`str.format(epoch=epoch+1, **logs)` as `formatT`, which fails with the first
unresolvable placeholder name (Python's `KeyError`).  The filesystem visible to
`_save_model` (`os.path.dirname`, `os.path.exists`, `os.makedirs`,
`torch.save`) is a structure `FS` holding the set of existing directories, a
flag saying whether serialization would raise, and the record of completed
writes.  Console output (`print`) is recorded as a list of `Msg` values.
Exceptions are modelled by returning the error alongside the state that was
already mutated when the exception propagates, exactly as Python leaves the
object's attributes.
-/

namespace DeepCTR

/-- A Python float as used here: a rational or one of the two infinities. -/
inductive Fl where
  | ninf : Fl
  | fin : ℚ → Fl
  | pinf : Fl
deriving DecidableEq

/-- Order on modelled floats (`a <= b` in Python, no NaNs involved). -/
def Fl.ble : Fl → Fl → Bool
  | .ninf, _ => true
  | _, .ninf => false
  | _, .pinf => true
  | .pinf, _ => false
  | .fin a, .fin b => a ≤ b

/-- Python's builtin `min` on two values: the first argument on ties. -/
def pymin (a b : Fl) : Fl := if a.ble b then a else b

/-- Python's builtin `max` on two values: the first argument on ties. -/
def pymax (a b : Fl) : Fl := if b.ble a then a else b

/-- Rendering of a metric value into the resolved path (stand-in for
Python's value formatting inside `str.format`). -/
def showFl : Fl → String
  | .ninf => "-inf"
  | .fin q => toString q
  | .pinf => "inf"

/-- `logs.get(name)`: first-match lookup in the metrics mapping. -/
def lookupLogs : List (String × Fl) → String → Option Fl
  | [], _ => none
  | (k, v) :: rest, n => if k = n then some v else lookupLogs rest n

/-- `sub` occurs as a contiguous sublist of the second argument. -/
def hasSubList (sub : List Char) : List Char → Bool
  | [] => sub.isEmpty
  | c :: t => sub.isPrefixOf (c :: t) || hasSubList sub t

/-- Python's `sub in s` substring containment on strings. -/
def strContains (s : String) (sub : String) : Bool :=
  hasSubList sub.toList s.toList

/-- One piece of the pre-parsed `filepath` format string. -/
inductive TItem where
  | lit : String → TItem
  | hole : String → TItem
deriving DecidableEq

/-- `filepath.format(epoch=epochVal, **logs)`: substitute `epochVal` for the
`epoch` placeholder and each `logs` entry for its named placeholder; fail with
the first placeholder name that is neither `epoch` nor a key of `logs`
(Python raises `KeyError` there). -/
def formatT (epochVal : Nat) (logs : List (String × Fl)) : List TItem → Except String String
  | [] => Except.ok ""
  | TItem.lit s :: rest =>
    match formatT epochVal logs rest with
    | Except.error n => Except.error n
    | Except.ok tail => Except.ok (s ++ tail)
  | TItem.hole n :: rest =>
    match (if n = "epoch" then some (toString epochVal) else Option.map showFl (lookupLogs logs n)) with
    | none => Except.error n
    | some v =>
      match formatT epochVal logs rest with
      | Except.error m => Except.error m
      | Except.ok tail => Except.ok (v ++ tail)

/-- `os.path.dirname` for POSIX paths: everything up to the last `/`,
with trailing slashes stripped unless the head is all slashes;
the empty string when the path has no `/` at all. -/
def dirname (p : String) : String :=
  let headRev := p.toList.reverse.dropWhile (fun c => c ≠ '/')
  if headRev.isEmpty then ""
  else if headRev.all (fun c => c = '/') then String.mk headRev.reverse
  else String.mk (headRev.dropWhile (fun c => c = '/')).reverse

/-- The exceptions `on_epoch_end` can let escape. -/
inductive CbError where
  | keyError : String → CbError
  | fileNotFoundError : String → CbError
  | saveError : CbError
deriving DecidableEq

/-- Whether the error comes from the persist step (`_save_model`) rather
than from path resolution. -/
def CbError.isPersist : CbError → Bool
  | .keyError _ => false
  | _ => true

/-- One line of console output (`print`), with the data it interpolates. -/
inductive Msg where
  | skipMissing : String → Msg
  | improved : Nat → String → Fl → Fl → String → Msg
  | notImproved : Nat → String → Fl → Msg
  | saving : Nat → String → Msg
deriving DecidableEq

/-- The filesystem as `_save_model` sees it: which directories exist,
whether `torch.save` would raise (disk full, unserializable object, ...),
and the record of completed writes (path, weights-only flag). -/
structure FS where
  dirs : List String
  saveRaises : Bool
  saved : List (String × Bool)
deriving DecidableEq

/-- `os.path.exists`: the empty path never exists. -/
def pathExists (fs : FS) (p : String) : Bool :=
  if p = "" then false else fs.dirs.contains p

/-- `os.makedirs`: raises `FileNotFoundError` on the empty path, otherwise
creates the directory. -/
def makedirs (fs : FS) (d : String) : Option CbError × FS :=
  if d = "" then (some (CbError.fileNotFoundError d), fs)
  else (none, { fs with dirs := d :: fs.dirs })

/-- The `ModelCheckpoint` object's attributes after `__init__`.
`monitor_op` stores the chosen two-argument extremum function
(`min` or `max` in the source). -/
structure ModelCheckpoint where
  filepath : List TItem
  monitor : String
  verbose : Nat
  save_best_only : Bool
  save_weights_only : Bool
  period : Nat
  epochs_since_last_save : Nat
  best : Fl
  monitor_op : Fl → Fl → Fl

/-- `ModelCheckpoint.__init__`: sets `best`/`monitor_op` from `mode`
(`min` picks `min`/`+inf`; everything else picks `max`/`-inf`), then for
`mode == 'auto'` re-infers them from whether `monitor` contains `'acc'`. -/
def ModelCheckpoint.init (filepath : List TItem) (monitor : String) (verbose : Nat)
    (save_best_only : Bool) (mode : String) (save_weights_only : Bool) (period : Nat) :
    ModelCheckpoint :=
  let base : ModelCheckpoint :=
    { filepath := filepath, monitor := monitor, verbose := verbose,
      save_best_only := save_best_only, save_weights_only := save_weights_only,
      period := period, epochs_since_last_save := 0,
      best := if mode = "min" then Fl.pinf else Fl.ninf,
      monitor_op := if mode = "min" then pymin else pymax }
  if mode = "auto" then
    if strContains monitor "acc" then
      { base with monitor_op := pymax, best := Fl.ninf }
    else
      { base with monitor_op := pymin, best := Fl.pinf }
  else
    base

/-- `ModelCheckpoint._save_model`: ensure the parent directory of `filepath`
exists (creating it when missing), then serialize.  Returns the error (if any)
together with the filesystem as mutated so far.  The `epoch` argument is
accepted and unused, as in the source. -/
def ModelCheckpoint.save_model (cb : ModelCheckpoint) (fs : FS) (_epoch : Nat)
    (filepath : String) : Option CbError × FS :=
  let directory := dirname filepath
  let afterDir := if pathExists fs directory then (none, fs) else makedirs fs directory
  match afterDir with
  | (some e, fs1) => (some e, fs1)
  | (none, fs1) =>
    if fs1.saveRaises then (some CbError.saveError, fs1)
    else (none, { fs1 with saved := (filepath, cb.save_weights_only) :: fs1.saved })

/-- Everything observable after one `on_epoch_end` call: the escaped exception
(if any), the object state, the filesystem, the console lines printed, whether
the cadence branch ran (counter reset + path resolution + evaluation), and the
paths passed to `_save_model`. -/
structure StepOut where
  err : Option CbError
  cb : ModelCheckpoint
  fs : FS
  msgs : List Msg
  attempted : Bool
  persistCalls : List String

/-- `ModelCheckpoint.on_epoch_end(epoch, logs)`. -/
def ModelCheckpoint.on_epoch_end (cb0 : ModelCheckpoint) (fs : FS) (epoch : Nat)
    (logs : List (String × Fl)) : StepOut :=
  let cb1 : ModelCheckpoint :=
    { cb0 with epochs_since_last_save := cb0.epochs_since_last_save + 1 }
  if cb1.epochs_since_last_save ≥ cb1.period then
    let cb : ModelCheckpoint := { cb1 with epochs_since_last_save := 0 }
    match formatT (epoch + 1) logs cb.filepath with
    | Except.error n =>
      { err := some (CbError.keyError n), cb := cb, fs := fs, msgs := [],
        attempted := true, persistCalls := [] }
    | Except.ok filepath =>
      if cb.save_best_only then
        match lookupLogs logs cb.monitor with
        | none =>
          { err := none, cb := cb, fs := fs,
            msgs := if cb.verbose > 0 then [Msg.skipMissing cb.monitor] else [],
            attempted := true, persistCalls := [] }
        | some current =>
          if cb.monitor_op current cb.best ≠ cb.best then
            let msgs := if cb.verbose > 0
              then [Msg.improved (epoch + 1) cb.monitor cb.best current filepath] else []
            let cb2 : ModelCheckpoint := { cb with best := current }
            let res := cb2.save_model fs epoch filepath
            { err := res.1, cb := cb2, fs := res.2, msgs := msgs,
              attempted := true, persistCalls := [filepath] }
          else
            { err := none, cb := cb, fs := fs,
              msgs := if cb.verbose > 0
                then [Msg.notImproved (epoch + 1) cb.monitor cb.best] else [],
              attempted := true, persistCalls := [] }
      else
        let msgs := if cb.verbose > 0 then [Msg.saving (epoch + 1) filepath] else []
        let res := cb.save_model fs epoch filepath
        { err := res.1, cb := cb, fs := res.2, msgs := msgs,
          attempted := true, persistCalls := [filepath] }
  else
    { err := none, cb := cb1, fs := fs, msgs := [], attempted := false,
      persistCalls := [] }

/-- Drive the policy through a sequence of `(epoch, logs)` calls, collecting
for each call whether the cadence branch ran. -/
def runSeq (cb : ModelCheckpoint) (fs : FS) :
    List (Nat × List (String × Fl)) → ModelCheckpoint × FS × List Bool
  | [] => (cb, fs, [])
  | (e, logs) :: rest =>
    let out := cb.on_epoch_end fs e logs
    let r := runSeq out.cb out.fs rest
    (r.1, r.2.1, out.attempted :: r.2.2)

/-! ### Basic facts about the extremum functions -/

theorem Fl.ble_refl (a : Fl) : a.ble a = true := by
  cases a <;> simp [Fl.ble]

theorem Fl.ble_antisymm {a b : Fl} (h1 : a.ble b = true) (h2 : b.ble a = true) : a = b := by
  cases a <;> cases b <;> simp_all [Fl.ble]
  exact le_antisymm h1 h2

theorem pymin_self (b : Fl) : pymin b b = b := by
  simp [pymin]

theorem pymax_self (b : Fl) : pymax b b = b := by
  simp [pymax]

theorem pymin_flip {c b : Fl} (h : pymin c b ≠ b) : pymin b c = c := by
  unfold pymin at h ⊢
  by_cases h1 : c.ble b
  · rw [if_pos h1] at h
    by_cases h2 : b.ble c
    · rw [if_pos h2]
      exact Fl.ble_antisymm h2 h1
    · rw [if_neg h2]
  · rw [if_neg h1] at h
    exact absurd rfl h

theorem pymax_flip {c b : Fl} (h : pymax c b ≠ b) : pymax b c = c := by
  unfold pymax at h ⊢
  by_cases h1 : b.ble c
  · rw [if_pos h1] at h
    by_cases h2 : c.ble b
    · exact absurd (Fl.ble_antisymm h2 h1) h
    · rw [if_neg h2]
  · rw [if_neg h1] at h
    exact absurd rfl h

theorem monitor_op_flip {op : Fl → Fl → Fl} (hop : op = pymin ∨ op = pymax) {c b : Fl}
    (h : op c b ≠ b) : op b c = c := by
  rcases hop with rfl | rfl
  · exact pymin_flip h
  · exact pymax_flip h

theorem monitor_op_self {op : Fl → Fl → Fl} (hop : op = pymin ∨ op = pymax) (b : Fl) :
    op b b = b := by
  rcases hop with rfl | rfl
  · exact pymin_self b
  · exact pymax_self b

/-! ### Shape of one `on_epoch_end` step: counter, period and attempted flag -/

theorem on_epoch_end_period_eq (cb0 : ModelCheckpoint) (fs : FS) (e : Nat)
    (logs : List (String × Fl)) :
    (cb0.on_epoch_end fs e logs).cb.period = cb0.period := by
  unfold ModelCheckpoint.on_epoch_end
  dsimp only
  repeat' split
  all_goals rfl

theorem on_epoch_end_attempted_eq (cb0 : ModelCheckpoint) (fs : FS) (e : Nat)
    (logs : List (String × Fl)) :
    (cb0.on_epoch_end fs e logs).attempted =
      decide (cb0.period ≤ cb0.epochs_since_last_save + 1) := by
  unfold ModelCheckpoint.on_epoch_end
  dsimp only
  by_cases h : cb0.period ≤ cb0.epochs_since_last_save + 1
  · rw [if_pos h]
    repeat' split
    all_goals simp [h]
  · rw [if_neg h]
    simp [h]

theorem on_epoch_end_counter_eq (cb0 : ModelCheckpoint) (fs : FS) (e : Nat)
    (logs : List (String × Fl)) :
    (cb0.on_epoch_end fs e logs).cb.epochs_since_last_save =
      (if cb0.period ≤ cb0.epochs_since_last_save + 1 then 0
       else cb0.epochs_since_last_save + 1) := by
  unfold ModelCheckpoint.on_epoch_end
  dsimp only
  by_cases h : cb0.period ≤ cb0.epochs_since_last_save + 1
  · rw [if_pos h, if_pos h]
    repeat' split
    all_goals rfl
  · rw [if_neg h, if_neg h]

/-! ### Modular-arithmetic helpers for the cadence invariant -/

theorem counter_mod_step (j N : Nat) (hN : 0 < N) :
    (if N ≤ j % N + 1 then 0 else j % N + 1) = (j + 1) % N := by
  have hr : j % N < N := Nat.mod_lt _ hN
  have h1 : (j + 1) % N = (j % N + 1) % N := (Nat.mod_add_mod j N 1).symm
  by_cases h : N ≤ j % N + 1
  · have he : j % N + 1 = N := by omega
    rw [if_pos h, h1, he, Nat.mod_self]
  · rw [if_neg h, h1, Nat.mod_eq_of_lt (show j % N + 1 < N by omega)]

theorem attempted_iff (j N : Nat) (hN : 0 < N) :
    (N ≤ j % N + 1) ↔ ((j + 1) % N = 0) := by
  have hr : j % N < N := Nat.mod_lt _ hN
  have h1 : (j + 1) % N = (j % N + 1) % N := (Nat.mod_add_mod j N 1).symm
  constructor
  · intro h
    have he : j % N + 1 = N := by omega
    rw [h1, he, Nat.mod_self]
  · intro h
    by_contra hc
    push_neg at hc
    rw [h1, Nat.mod_eq_of_lt (by omega)] at h
    omega

/-- Invariant of `runSeq`: starting with counter `j % N`, the final period is
still `N`, the final counter is `(j + length) % N`, and the cadence branch ran
on call `i` (zero-based) exactly when `(j + i + 1) % N = 0`. -/
theorem runSeq_spec (N : Nat) (hN : 0 < N) :
    ∀ (calls : List (Nat × List (String × Fl))) (cb : ModelCheckpoint) (fs : FS) (j : Nat),
      cb.period = N → cb.epochs_since_last_save = j % N →
      (runSeq cb fs calls).1.period = N ∧
      (runSeq cb fs calls).1.epochs_since_last_save = (j + calls.length) % N ∧
      ∀ i (h : i < (runSeq cb fs calls).2.2.length),
        (runSeq cb fs calls).2.2.get ⟨i, h⟩ = decide ((j + i + 1) % N = 0) := by
  intro calls
  induction calls with
  | nil =>
    intro cb fs j hp hc
    refine ⟨hp, by simpa [runSeq] using hc, ?_⟩
    intro i h
    simp [runSeq] at h
  | cons head rest ih =>
    intro cb fs j hp hc
    obtain ⟨e, logs⟩ := head
    have hper : (cb.on_epoch_end fs e logs).cb.period = N := by
      rw [on_epoch_end_period_eq, hp]
    have hcnt : (cb.on_epoch_end fs e logs).cb.epochs_since_last_save = (j + 1) % N := by
      rw [on_epoch_end_counter_eq, hp, hc, counter_mod_step j N hN]
    have hatt : (cb.on_epoch_end fs e logs).attempted = decide ((j + 1) % N = 0) := by
      rw [on_epoch_end_attempted_eq, hp, hc]
      exact decide_eq_decide.mpr (attempted_iff j N hN)
    obtain ⟨ih1, ih2, ih3⟩ :=
      ih (cb.on_epoch_end fs e logs).cb (cb.on_epoch_end fs e logs).fs (j + 1) hper hcnt
    refine ⟨?_, ?_, ?_⟩
    · simpa [runSeq] using ih1
    · have harith : j + 1 + rest.length = j + (rest.length + 1) := by omega
      simpa [runSeq, harith] using ih2
    · intro i h
      simp only [runSeq] at h ⊢
      match i with
      | 0 => simpa using hatt
      | Nat.succ i =>
        have harith : j + 1 + i + 1 = j + (i + 1) + 1 := by omega
        have hlen : i < ((runSeq (cb.on_epoch_end fs e logs).cb
            (cb.on_epoch_end fs e logs).fs rest).2.2).length := by
          simpa using h
        have := ih3 i hlen
        rw [harith] at this
        simpa using this

/-! ### Concrete fixtures for witnesses and counterexamples -/

/-- A filesystem where directory `d` exists and serialization succeeds. -/
def fsD : FS := { dirs := ["d"], saveRaises := false, saved := [] }

/-- A filesystem where directory `d` exists but serialization raises. -/
def fsR : FS := { dirs := ["d"], saveRaises := true, saved := [] }

/-- A checkpoint with cadence 2, fresh from construction. -/
def cbPer2 : ModelCheckpoint :=
  ModelCheckpoint.init [TItem.lit "d/m"] "val_loss" 1 true "auto" false 2

/-- A fresh `mode='min'`, `save_best_only=True` checkpoint with cadence 1. -/
def cbMinW : ModelCheckpoint :=
  ModelCheckpoint.init [TItem.lit "d/m"] "val_loss" 0 true "min" false 1

/-- A mid-run minimize-direction checkpoint whose best seen value is `1`. -/
def cbBest1 : ModelCheckpoint :=
  { filepath := [TItem.lit "d/m"], monitor := "val_loss", verbose := 0,
    save_best_only := true, save_weights_only := false, period := 1,
    epochs_since_last_save := 0, best := Fl.fin 1, monitor_op := pymin }

/-! ### C6: auto mode infers the direction from the monitored metric's name -/

/-- C6: at construction with `mode='auto'`, a monitor name containing `'acc'`
yields `monitor_op = max` and `best = -inf`; any other name yields
`monitor_op = min` and `best = +inf`. -/
theorem init_auto_infers_direction (filepath : List TItem) (monitor : String)
    (verbose : Nat) (sbo swo : Bool) (period : Nat) :
    (ModelCheckpoint.init filepath monitor verbose sbo "auto" swo period).monitor_op =
      (if strContains monitor "acc" then pymax else pymin) ∧
    (ModelCheckpoint.init filepath monitor verbose sbo "auto" swo period).best =
      (if strContains monitor "acc" then Fl.ninf else Fl.pinf) := by
  by_cases h : strContains monitor "acc" <;>
    simp [ModelCheckpoint.init, h]

/-! ### C8: below the cadence, nothing but the counter changes -/

/-- C8: when the incremented counter is still below the cadence,
`on_epoch_end` raises nothing, resolves no path, writes nothing, prints
nothing, and changes nothing except incrementing `epochs_since_last_save`. -/
theorem below_cadence_frame (cb0 : ModelCheckpoint) (fs : FS) (epoch : Nat)
    (logs : List (String × Fl))
    (hlt : cb0.epochs_since_last_save + 1 < cb0.period) :
    cb0.on_epoch_end fs epoch logs =
      { err := none,
        cb := { cb0 with epochs_since_last_save := cb0.epochs_since_last_save + 1 },
        fs := fs, msgs := [], attempted := false, persistCalls := [] } := by
  unfold ModelCheckpoint.on_epoch_end
  dsimp only
  rw [if_neg (by omega)]

/-- Witness for C8 at a cadence-2 checkpoint on its first epoch-end call. -/
theorem below_cadence_frame_witness :
    cbPer2.on_epoch_end fsD 0 [("val_loss", Fl.fin 1)] =
      { err := none,
        cb := { cbPer2 with epochs_since_last_save := cbPer2.epochs_since_last_save + 1 },
        fs := fsD, msgs := [], attempted := false, persistCalls := [] } :=
  below_cadence_frame cbPer2 fsD 0 [("val_loss", Fl.fin 1)] (by decide)

/-! ### C9: any mode other than `min`/`auto` silently maximizes -/

/-- C9: every `mode` argument other than `'min'` and `'auto'` (including
`'max'` and unrecognized strings) configures `monitor_op = max` and
`best = -inf`; construction never fails. -/
theorem init_unrecognized_mode_maximizes (filepath : List TItem) (monitor : String)
    (verbose : Nat) (sbo swo : Bool) (period : Nat) (mode : String)
    (h1 : mode ≠ "min") (h2 : mode ≠ "auto") :
    (ModelCheckpoint.init filepath monitor verbose sbo mode swo period).monitor_op = pymax ∧
    (ModelCheckpoint.init filepath monitor verbose sbo mode swo period).best = Fl.ninf := by
  unfold ModelCheckpoint.init
  dsimp only
  rw [if_neg h2]
  constructor
  · dsimp only
    rw [if_neg h1]
  · dsimp only
    rw [if_neg h1]

/-- Witness for C9 at the unrecognized mode string `'banana'`. -/
theorem init_unrecognized_mode_maximizes_witness :
    (ModelCheckpoint.init [TItem.lit "d/m"] "val_loss" 0 false "banana" false 1).monitor_op
        = pymax ∧
    (ModelCheckpoint.init [TItem.lit "d/m"] "val_loss" 0 false "banana" false 1).best
        = Fl.ninf :=
  init_unrecognized_mode_maximizes [TItem.lit "d/m"] "val_loss" 0 false false 1 "banana"
    (by decide) (by decide)

/-! ### C10: persisting to a bare filename always fails -/

/-- C10: when the resolved path has no directory component
(`os.path.dirname` yields `""`), `_save_model` finds that `""` does not
exist, calls `makedirs("")`, and that raises: the save fails and the
filesystem is untouched. -/
theorem save_model_bare_filename_fails (cb : ModelCheckpoint) (fs : FS) (epoch : Nat)
    (filepath : String) (hd : dirname filepath = "") :
    cb.save_model fs epoch filepath = (some (CbError.fileNotFoundError ""), fs) := by
  unfold ModelCheckpoint.save_model
  dsimp only
  rw [hd]
  simp [pathExists, makedirs]

/-- Witness for C10 at the bare filename `model.h5`. -/
theorem save_model_bare_filename_fails_witness :
    cbMinW.save_model fsD 0 "model.h5" = (some (CbError.fileNotFoundError ""), fsD) :=
  save_model_bare_filename_fails cbMinW fsD 0 "model.h5" (by decide)

/-! ### C1: a tie with the current best is NOT an improvement -/

/-- State after a first epoch-end where `val_loss = 1` improved from `+inf`. -/
def stepTie1 : StepOut := cbMinW.on_epoch_end fsD 0 [("val_loss", Fl.fin 1)]

/-- A second epoch-end with the same `val_loss = 1`: a tie with the best. -/
def stepTie2 : StepOut := stepTie1.cb.on_epoch_end stepTie1.fs 1 [("val_loss", Fl.fin 1)]

/-- C1 counterexample: with `save_best_only=True` and minimize direction, a
second epoch whose `val_loss` equals the recorded best (`1 = 1`) completes
without error but persists nothing: `_save_model` is not called and the
record of writes does not grow, refuting that a tie counts as improvement. -/
theorem tie_is_not_improvement_cex :
    stepTie1.fs.saved = [("d/m", false)] ∧
    stepTie2.err = none ∧
    stepTie2.persistCalls = [] ∧
    stepTie2.fs.saved = [("d/m", false)] ∧
    stepTie2.cb.best = Fl.fin 1 := by
  decide

/-- C1 (amended): when the monitored metric's current value equals
`best_value`, improvement does NOT hold: the call completes without error,
`best_value` is unchanged, nothing is persisted, and the "did not improve"
message is printed when verbose. -/
theorem tie_is_not_improvement (cb0 : ModelCheckpoint) (fs : FS) (epoch : Nat)
    (logs : List (String × Fl)) (p : String)
    (hop : cb0.monitor_op = pymin ∨ cb0.monitor_op = pymax)
    (hb : cb0.save_best_only = true)
    (hc : cb0.period ≤ cb0.epochs_since_last_save + 1)
    (hres : formatT (epoch + 1) logs cb0.filepath = Except.ok p)
    (hm : lookupLogs logs cb0.monitor = some cb0.best) :
    cb0.on_epoch_end fs epoch logs =
      { err := none, cb := { cb0 with epochs_since_last_save := 0 }, fs := fs,
        msgs := if cb0.verbose > 0
          then [Msg.notImproved (epoch + 1) cb0.monitor cb0.best] else [],
        attempted := true, persistCalls := [] } := by
  unfold ModelCheckpoint.on_epoch_end
  dsimp only
  rw [if_pos hc, hres]
  dsimp only
  rw [if_pos hb, hm]
  dsimp only
  rw [if_neg (not_ne_iff.mpr (monitor_op_self hop cb0.best))]

/-- Witness for the amended C1: a tie at `val_loss = 1` against best `1`. -/
theorem tie_is_not_improvement_witness :
    cbBest1.on_epoch_end fsD 0 [("val_loss", Fl.fin 1)] =
      { err := none, cb := { cbBest1 with epochs_since_last_save := 0 }, fs := fsD,
        msgs := if cbBest1.verbose > 0
          then [Msg.notImproved (0 + 1) cbBest1.monitor cbBest1.best] else [],
        attempted := true, persistCalls := [] } :=
  tie_is_not_improvement cbBest1 fsD 0 [("val_loss", Fl.fin 1)] "d/m"
    (Or.inl rfl) rfl (by decide) (by rfl) (by rfl)

/-! ### C2: path resolution happens BEFORE the comparison bookkeeping -/

/-- A mid-run checkpoint whose path template references `val_acc`, which the
metrics mapping does not supply. -/
def cbBadTemplate : ModelCheckpoint :=
  { filepath := [TItem.hole "val_acc"], monitor := "val_loss", verbose := 0,
    save_best_only := true, save_weights_only := false, period := 1,
    epochs_since_last_save := 0, best := Fl.fin 1, monitor_op := pymin }

/-- C2 counterexample: the current `val_loss = 0` strictly improves on the
best `1`, yet when the unresolvable-placeholder error propagates,
`best_value` is still the old `1` — it does NOT reflect the current epoch's
metric value, because resolution runs before the comparison bookkeeping. -/
theorem resolution_before_bookkeeping_cex :
    (cbBadTemplate.on_epoch_end fsD 0 [("val_loss", Fl.fin 0)]).err =
        some (CbError.keyError "val_acc") ∧
    (cbBadTemplate.on_epoch_end fsD 0 [("val_loss", Fl.fin 0)]).cb.best = Fl.fin 1 ∧
    Fl.fin 1 ≠ Fl.fin 0 := by
  decide

/-- C2 (amended): path resolution runs before the comparison bookkeeping.
When resolution fails, the error propagates with `best_value` unchanged from
before the call (the counter has already been reset to 0): a resolution
failure never reflects the current epoch's metric in `best_value`. -/
theorem resolution_failure_preserves_best (cb0 : ModelCheckpoint) (fs : FS) (epoch : Nat)
    (logs : List (String × Fl)) (n : String)
    (hc : cb0.period ≤ cb0.epochs_since_last_save + 1)
    (hres : formatT (epoch + 1) logs cb0.filepath = Except.error n) :
    cb0.on_epoch_end fs epoch logs =
      { err := some (CbError.keyError n),
        cb := { cb0 with epochs_since_last_save := 0 }, fs := fs, msgs := [],
        attempted := true, persistCalls := [] } := by
  unfold ModelCheckpoint.on_epoch_end
  dsimp only
  rw [if_pos hc, hres]

/-- Witness for the amended C2 at the unresolvable template `{val_acc}`. -/
theorem resolution_failure_preserves_best_witness :
    cbBadTemplate.on_epoch_end fsD 0 [("val_loss", Fl.fin 0)] =
      { err := some (CbError.keyError "val_acc"),
        cb := { cbBadTemplate with epochs_since_last_save := 0 }, fs := fsD, msgs := [],
        attempted := true, persistCalls := [] } :=
  resolution_failure_preserves_best cbBadTemplate fsD 0 [("val_loss", Fl.fin 0)] "val_acc"
    (by decide) (by rfl)

/-! ### C4: missing monitored metric is a recoverable skip — once the path resolves -/

/-- A `save_best_only` checkpoint whose path template references the
monitored metric itself. -/
def cbHoleMonitor : ModelCheckpoint :=
  { filepath := [TItem.hole "val_loss"], monitor := "val_loss", verbose := 0,
    save_best_only := true, save_weights_only := false, period := 1,
    epochs_since_last_save := 0, best := Fl.pinf, monitor_op := pymin }

/-- C4 counterexample: with `save_best_only=True` and the monitored metric
absent from the metrics mapping, the call CAN raise — path resolution runs
first, and a template placeholder naming the missing metric raises KeyError,
refuting "the call raises no exception". -/
theorem missing_metric_raises_cex :
    (cbHoleMonitor.on_epoch_end fsD 0 []).err = some (CbError.keyError "val_loss") := by
  decide

/-- C4 (amended): on a call where the save-attempt branch runs and the path
template resolves, with `save_best_only=True` and the monitored key absent
from the metrics, nothing is raised, nothing is persisted, `best_value` is
unchanged, and the counter ends reset to 0; when verbose, a warning naming
the missing metric is printed. -/
theorem missing_metric_skips (cb0 : ModelCheckpoint) (fs : FS) (epoch : Nat)
    (logs : List (String × Fl)) (p : String)
    (hb : cb0.save_best_only = true)
    (hc : cb0.period ≤ cb0.epochs_since_last_save + 1)
    (hres : formatT (epoch + 1) logs cb0.filepath = Except.ok p)
    (hm : lookupLogs logs cb0.monitor = none) :
    cb0.on_epoch_end fs epoch logs =
      { err := none, cb := { cb0 with epochs_since_last_save := 0 }, fs := fs,
        msgs := if cb0.verbose > 0 then [Msg.skipMissing cb0.monitor] else [],
        attempted := true, persistCalls := [] } := by
  unfold ModelCheckpoint.on_epoch_end
  dsimp only
  rw [if_pos hc, hres]
  dsimp only
  rw [if_pos hb, hm]

/-- Witness for the amended C4: empty metrics with a literal template. -/
theorem missing_metric_skips_witness :
    cbMinW.on_epoch_end fsD 0 [] =
      { err := none, cb := { cbMinW with epochs_since_last_save := 0 }, fs := fsD,
        msgs := if cbMinW.verbose > 0 then [Msg.skipMissing cbMinW.monitor] else [],
        attempted := true, persistCalls := [] } :=
  missing_metric_skips cbMinW fsD 0 [] "d/m" (by rfl) (by decide) (by rfl) (by rfl)

/-! ### C3: exact cadence of save attempts and the counter bound -/

/-- C3: over any sequence of `on_epoch_end` calls on a fresh policy with
cadence `N >= 1`, the save-attempt branch (counter reset, path resolution,
evaluation) runs on the `k`-th call exactly when `k % N = 0` (counting calls
from 1), and after every call `epochs_since_last_save` equals the number of
calls so far modulo `N`, hence always lies in `[0, N)`. -/
theorem cadence_exact (cb : ModelCheckpoint) (fs : FS)
    (calls : List (Nat × List (String × Fl)))
    (hN : 1 ≤ cb.period) (h0 : cb.epochs_since_last_save = 0) :
    (∀ i (h : i < (runSeq cb fs calls).2.2.length),
        (runSeq cb fs calls).2.2.get ⟨i, h⟩ = decide ((i + 1) % cb.period = 0)) ∧
    (runSeq cb fs calls).1.epochs_since_last_save = calls.length % cb.period ∧
    calls.length % cb.period < cb.period := by
  have h := runSeq_spec cb.period hN calls cb fs 0 rfl (by simp [h0])
  refine ⟨?_, ?_, Nat.mod_lt _ hN⟩
  · intro i hi
    have hflag := h.2.2 i hi
    simpa using hflag
  · simpa using h.2.1

/-- Witness for C3: three calls at cadence 2 leave the counter at `3 % 2`. -/
theorem cadence_exact_witness :
    (runSeq cbPer2 fsD [(0, []), (1, []), (2, [])]).1.epochs_since_last_save =
        3 % cbPer2.period ∧
    3 % cbPer2.period < cbPer2.period := by
  have h := cadence_exact cbPer2 fsD [(0, []), (1, []), (2, [])] (by decide) (by decide)
  exact ⟨h.2.1, h.2.2⟩

/-! ### C5: a failed persist propagates and state is not rolled back -/

/-- C5: whenever the persist step raises (directory creation or
serialization), the error escapes `on_epoch_end` with
`epochs_since_last_save` already reset to 0 and, in the
`save_best_only` case, `best_value` already holding the current (new)
metric value — nothing is rolled back. -/
theorem persist_failure_keeps_state (cb0 : ModelCheckpoint) (fs : FS) (epoch : Nat)
    (logs : List (String × Fl)) (e : CbError)
    (he : (cb0.on_epoch_end fs epoch logs).err = some e)
    (hp : e.isPersist = true) :
    (cb0.on_epoch_end fs epoch logs).cb.epochs_since_last_save = 0 ∧
    (cb0.save_best_only = true →
      ∃ current, lookupLogs logs cb0.monitor = some current ∧
        (cb0.on_epoch_end fs epoch logs).cb.best = current) := by
  revert he
  unfold ModelCheckpoint.on_epoch_end
  dsimp only
  split
  · split
    · intro he
      dsimp only at he
      obtain rfl : CbError.keyError _ = e := Option.some.inj he
      simp [CbError.isPersist] at hp
    · split
      · split
        · intro he
          dsimp only at he
          exact absurd he (by simp)
        · split
          · intro _
            refine ⟨rfl, fun _ => ⟨_, ?_, rfl⟩⟩
            assumption
          · intro he
            dsimp only at he
            exact absurd he (by simp)
      · rename_i hsbo
        intro _
        exact ⟨rfl, fun hb => absurd hb hsbo⟩
  · intro he
    dsimp only at he
    exact absurd he (by simp)

/-- Witness for C5: serialization raises after an improvement from `+inf`. -/
theorem persist_failure_keeps_state_witness :
    (cbMinW.on_epoch_end fsR 0 [("val_loss", Fl.fin 1)]).cb.epochs_since_last_save = 0 ∧
    (cbMinW.save_best_only = true →
      ∃ current, lookupLogs [("val_loss", Fl.fin 1)] cbMinW.monitor = some current ∧
        (cbMinW.on_epoch_end fsR 0 [("val_loss", Fl.fin 1)]).cb.best = current) :=
  persist_failure_keeps_state cbMinW fsR 0 [("val_loss", Fl.fin 1)] CbError.saveError
    (by decide) (by decide)

/-! ### C7: best_value is monotonically non-worsening under the direction -/

/-- C7: on an attempted evaluation with the metric present, if the
strictly-better test passes then the new `best_value` equals
`monitor_op(old_best, current)` (which is `current`) and `_save_model` is
invoked on the resolved path; if it fails then nothing changes: `best_value`
keeps its old value, the filesystem is untouched and no save happens. -/
theorem best_value_monotone (cb0 : ModelCheckpoint) (fs : FS) (epoch : Nat)
    (logs : List (String × Fl)) (current : Fl) (p : String)
    (hop : cb0.monitor_op = pymin ∨ cb0.monitor_op = pymax)
    (hb : cb0.save_best_only = true)
    (hc : cb0.period ≤ cb0.epochs_since_last_save + 1)
    (hres : formatT (epoch + 1) logs cb0.filepath = Except.ok p)
    (hcur : lookupLogs logs cb0.monitor = some current) :
    (cb0.monitor_op current cb0.best ≠ cb0.best →
       (cb0.on_epoch_end fs epoch logs).cb.best = cb0.monitor_op cb0.best current ∧
       (cb0.on_epoch_end fs epoch logs).persistCalls = [p] ∧
       (cb0.on_epoch_end fs epoch logs).cb.epochs_since_last_save = 0) ∧
    (cb0.monitor_op current cb0.best = cb0.best →
       (cb0.on_epoch_end fs epoch logs).cb.best = cb0.best ∧
       (cb0.on_epoch_end fs epoch logs).fs = fs ∧
       (cb0.on_epoch_end fs epoch logs).persistCalls = []) := by
  constructor
  · intro h
    unfold ModelCheckpoint.on_epoch_end
    dsimp only
    rw [if_pos hc, hres]
    dsimp only
    rw [if_pos hb, hcur]
    dsimp only
    rw [if_pos h]
    exact ⟨(monitor_op_flip hop h).symm, rfl, rfl⟩
  · intro h
    unfold ModelCheckpoint.on_epoch_end
    dsimp only
    rw [if_pos hc, hres]
    dsimp only
    rw [if_pos hb, hcur]
    dsimp only
    rw [if_neg (not_ne_iff.mpr h)]
    exact ⟨rfl, rfl, rfl⟩

/-- The rational one half (`0.5`), given in lowest terms so that concrete
evaluation never needs a gcd computation. -/
def qHalf : ℚ := ⟨1, 2, by norm_num, by norm_num⟩

/-- The rational three halves (`1.5`) in lowest terms. -/
def qThreeHalves : ℚ := ⟨3, 2, by norm_num, by norm_num⟩

/-- Witness for C7: minimize direction against best `1.0` — current `0.5`
improves (best becomes `0.5`, save attempted), current `1.5` does not
(no save, best stays `1.0`). -/
theorem best_value_monotone_witness :
    ((cbBest1.on_epoch_end fsD 0 [("val_loss", Fl.fin qHalf)]).cb.best =
        cbBest1.monitor_op cbBest1.best (Fl.fin qHalf) ∧
      (cbBest1.on_epoch_end fsD 0 [("val_loss", Fl.fin qHalf)]).persistCalls = ["d/m"] ∧
      (cbBest1.on_epoch_end fsD 0
          [("val_loss", Fl.fin qHalf)]).cb.epochs_since_last_save = 0) ∧
    ((cbBest1.on_epoch_end fsD 0 [("val_loss", Fl.fin qThreeHalves)]).cb.best =
        cbBest1.best ∧
      (cbBest1.on_epoch_end fsD 0 [("val_loss", Fl.fin qThreeHalves)]).fs = fsD ∧
      (cbBest1.on_epoch_end fsD 0 [("val_loss", Fl.fin qThreeHalves)]).persistCalls
        = []) := by
  constructor
  · exact (best_value_monotone cbBest1 fsD 0 [("val_loss", Fl.fin qHalf)] (Fl.fin qHalf)
      "d/m" (Or.inl rfl) rfl (by decide) (by rfl) (by rfl)).1 (by decide)
  · exact (best_value_monotone cbBest1 fsD 0 [("val_loss", Fl.fin qThreeHalves)]
      (Fl.fin qThreeHalves) "d/m" (Or.inl rfl) rfl (by decide) (by rfl) (by rfl)).2
      (by decide)

end DeepCTR
